import Mathlib

/-
Verification of the awareness-bot moderation core (src/awarenessbot.py)
against its natural-language specification.

The Python plugin is shallowly embedded: the warning store (the SQL `data`
table) is a list of rows, the matrix side effects (set_warning_count,
mute, evt.reply, client.send_message) are recorded as explicit actions,
and the async event handler becomes a pure state-passing function.
Logging calls (self.log.log) have no program effect and are dropped.
-/

namespace AwarenessBot

/- ---------------------------------------------------------------- -/
/- Data model                                                        -/
/- ---------------------------------------------------------------- -/

/-- The `data` table created by upgrade_v1:
`CREATE TABLE data (user TEXT PRIMARY KEY, warnings INT NOT NULL)`.
Rows in insertion order; the TEXT primary key compares exact (binary),
so two differently-cased user strings are two distinct keys. -/
abbrev Store := List (String × Nat)

/-- Message type of the event content (evt.content.msgtype).
`other` stands for any msgtype outside MessageType.TEXT / MessageType.EMOTE,
including content that carries no msgtype at all (reaction content). -/
inductive MsgType where
  | text
  | emote
  | other
deriving DecidableEq

/-- Top-level matrix event type (evt.type): m.room.message or m.reaction. -/
inductive EvtType where
  | roomMessage
  | reaction
deriving DecidableEq

/-- The parts of a maubot MessageEvent the plugin reads. -/
structure MessageEvent where
  sender : String
  evtType : EvtType
  msgtype : MsgType
  body : String
  reactionKey : Option String
  roomId : String
  replyTo : Option String
deriving DecidableEq

/-- The plugin configuration (Config.do_update copies exactly these keys).
`notification_room` is `none` when the key is unset or empty (the source
tests it with Python truthiness). -/
structure Config where
  keywords : List String
  notification_room : Option String
  message_warning : String
  message_mute : String
  message_report : String
  message_notify : String
deriving DecidableEq

/-- Python `str.lower()`. Implemented over the character list so that it
evaluates inside the kernel. -/
def strLower (s : String) : String :=
  ⟨s.data.map Char.toLower⟩

/-- Helper for `strContains`: does `needle` occur in the haystack list? -/
def containsAux (needle : List Char) : List Char → Bool
  | [] => needle.isEmpty
  | a :: as => needle.isPrefixOf (a :: as) || containsAux needle as

/-- Python substring containment `needle in hay` (an empty needle is
contained in every string). -/
def strContains (hay needle : String) : Bool :=
  containsAux needle.data hay.data

/-- Helper for `strReplace`: replace every non-overlapping occurrence of
the non-empty pattern, left to right. The fuel argument starts at the
length of the string and dominates it throughout. -/
def replaceAux (pat rep : List Char) : Nat → List Char → List Char
  | _, [] => []
  | 0, s => s
  | fuel + 1, a :: as =>
    if pat.isPrefixOf (a :: as) then
      rep ++ replaceAux pat rep fuel (List.drop (pat.length - 1) as)
    else
      a :: replaceAux pat rep fuel as

/-- Python `s.replace(pat, rep)` for the non-empty literal patterns the
source uses (`[user]`, `[keyword]`, `[count]`, `[reporter]`, `[room]`). -/
def strReplace (s pat rep : String) : String :=
  if pat.isEmpty then s
  else ⟨replaceAux pat.data rep.data s.data.length s.data⟩

/- ---------------------------------------------------------------- -/
/- WarningStore operations                                           -/
/- ---------------------------------------------------------------- -/

/-- Awareness.get_warning_count:
`SELECT warnings FROM data WHERE LOWER(user)=LOWER($1)` followed by
fetchval (the first matching row, or NULL when there is none) and the
Python truthiness check `if warnings: return int(warnings) else: return 0`. -/
def get_warning_count (db : Store) (sender : String) : Nat :=
  match db.find? (fun r => strLower r.1 == strLower sender) with
  | some r => if r.2 == 0 then 0 else r.2
  | none => 0

/-- Awareness.set_warning_count:
`INSERT INTO data (user, warnings) VALUES ($1, $2)
 ON CONFLICT (user) DO UPDATE SET warnings=excluded.warnings`.
The conflict target is the exact-cased primary key `user`, so the update
path fires only on an exact match; otherwise a new row is appended. -/
def set_warning_count (db : Store) (sender : String) (warnings : Nat) : Store :=
  if db.any (fun r => r.1 == sender) then
    db.map (fun r => if r.1 == sender then (r.1, warnings) else r)
  else
    db ++ [(sender, warnings)]

/- ---------------------------------------------------------------- -/
/- Rendering (prettify_usernames)                                    -/
/- ---------------------------------------------------------------- -/

/-- The matrix.to mention anchor built by prettify_usernames. -/
def mentionLink (user : String) : String :=
  "<a href=\x27https://matrix.to/#/" ++ user ++ "\x27>" ++ user ++ "</a>"

/-- The TextMessageEventContent the bot sends: plain body plus HTML
formatted body. -/
structure RenderedContent where
  body : String
  formattedBody : String
deriving DecidableEq

/-- Awareness.prettify_usernames: substitute `[reporter]` (when a reporter
is given) in both bodies, and `[user]` in the formatted body only. -/
def prettify_usernames (content : String) (user : String)
    (reporter : Option String) : RenderedContent :=
  let content :=
    match reporter with
    | some r => strReplace content "[reporter]" (mentionLink r)
    | none => content
  { body := content
    formattedBody := strReplace content "[user]" (mentionLink user) }

/- ---------------------------------------------------------------- -/
/- Observable side effects                                           -/
/- ---------------------------------------------------------------- -/

/-- One observable side effect of processing an event, in program order. -/
inductive Action where
  | setCount (user : String) (count : Nat)
  | muteCall (target : String)
  | reply (content : RenderedContent)
  | sendMessage (room : String) (content : RenderedContent)
deriving DecidableEq

/- ---------------------------------------------------------------- -/
/- The event handler                                                 -/
/- ---------------------------------------------------------------- -/

/-- Awareness.allowed_msgtypes = (MessageType.TEXT, MessageType.EMOTE). -/
def allowed_msgtypes : List MsgType := [MsgType.text, MsgType.emote]

/-- The reply content built for one keyword match (source lines 102-108):
select message_mute when the reduced count exceeds 1, else
message_warning; substitute `[keyword]` and the post-increment `[count]`;
prettify with the sender mention. `e` is the reduced count `warnings % 3`
read before the increment. -/
def keywordReply (cfg : Config) (keyword : String) (e : Nat)
    (sender : String) : RenderedContent :=
  prettify_usernames
    (strReplace
      (strReplace (if e > 1 then cfg.message_mute else cfg.message_warning)
        "[keyword]" keyword)
      "[count]" (toString (e + 1)))
    sender none

/-- The `for keyword in self.config["keywords"]` loop of
Awareness.event_handler (source lines 97-113). For each keyword whose
lower-cased text occurs in the lower-cased body: read the warning count,
reduce it modulo 3, mute when the reduced count exceeds 1, persist the
reduced count plus one, and reply; then continue with the remaining
keywords on the updated store (no short-circuit). Mute attempts are
recorded as opaque muteCall actions: this models runs in which no mute
attempt raises, i.e. mute outcomes other than MForbidden; the
exception-aware model is `keywordLoopExc`. -/
def keywordLoop (cfg : Config) (evt : MessageEvent) :
    List String → Store → Store × List Action
  | [], db => (db, [])
  | keyword :: rest, db =>
    if strContains (strLower evt.body) (strLower keyword) then
      let warnings := get_warning_count db evt.sender
      let e := warnings % 3
      let content := keywordReply cfg keyword e evt.sender
      let db1 := set_warning_count db evt.sender (e + 1)
      let r := keywordLoop cfg evt rest db1
      (r.1,
        (if e > 1 then [Action.muteCall evt.sender] else [])
          ++ [Action.setCount evt.sender (e + 1), Action.reply content]
          ++ r.2)
    else
      keywordLoop cfg evt rest db

/-- Awareness.event_handler (source lines 87-113).
Guard (line 89): ignore the event when the sender is the bot itself or the
content msgtype is outside allowed_msgtypes.
The reaction branch (lines 92-95) can never reach `self.report`: reaction
events are not of type ROOM_MESSAGE (see `dispatch`), their content has no
allowed msgtype so the guard already returned, and even on that dead path
`self.report(evt)` is called without await, so the coroutine it returns is
discarded and the report body never executes; the branch therefore
contributes no effect. -/
def event_handler (cfg : Config) (botMxid : String) (db : Store)
    (evt : MessageEvent) : Store × List Action :=
  if evt.sender = botMxid ∨ evt.msgtype ∉ allowed_msgtypes then
    (db, [])
  else
    keywordLoop cfg evt cfg.keywords db

/-- The maubot dispatch layer: event_handler is registered with
`@event.on(EventType.ROOM_MESSAGE)`, so only events whose top-level type
is m.room.message are ever delivered to it; reaction events (type
m.reaction) are not. -/
def dispatch (cfg : Config) (botMxid : String) (db : Store)
    (evt : MessageEvent) : Store × List Action :=
  if evt.evtType = EvtType.roomMessage then
    event_handler cfg botMxid db evt
  else
    (db, [])

/-- A race-free sequence of inbound events, each handled to completion
before the next: the final store and the per-event action lists. -/
def processEvents (cfg : Config) (botMxid : String) :
    List MessageEvent → Store → Store × List (List Action)
  | [], db => (db, [])
  | evt :: rest, db =>
    let r1 := event_handler cfg botMxid db evt
    let r2 := processEvents cfg botMxid rest r1.1
    (r2.1, r1.2 :: r2.2)

/- ---------------------------------------------------------------- -/
/- Moderator: Awareness.mute                                         -/
/- ---------------------------------------------------------------- -/

/-- The `users` dictionary of the m.room.power_levels state event,
as an insertion-ordered key-value list (a Python dict). -/
abbrev PowerLevels := List (String × Int)

/-- Reading a user entry of the power-level dictionary. -/
def lookupUser (users : PowerLevels) (uid : String) : Option Int :=
  (users.find? (fun p => p.1 == uid)).map (fun p => p.2)

/-- Python dict update `levels.users[user_id] = level`: overwrite the
entry when the key is present, append it otherwise. -/
def setUser (users : PowerLevels) (uid : String) (lvl : Int) : PowerLevels :=
  if users.any (fun p => p.1 == uid) then
    users.map (fun p => if p.1 == uid then (p.1, lvl) else p)
  else
    users ++ [(uid, lvl)]

/-- Outcome of the matrix client calls inside Awareness.mute:
success, MForbidden, another MatrixRequestError, or IntentError. -/
inductive StateCallResult where
  | ok
  | forbidden
  | requestError
  | intentError
deriving DecidableEq

/-- What Awareness.mute did: the power-level map written back on success,
whether the failure was logged, whether a user-visible reply about the
failure was sent, and whether an exception escaped the call (aborting the
caller, since `await self.mute(evt)` at line 104 is not inside any try
block). -/
structure MuteResult where
  newLevels : Option PowerLevels
  logged : Bool
  replySent : Bool
  raised : Bool
deriving DecidableEq

/-- Awareness.mute (source lines 74-85): set the target user to power
level -1 in the retrieved map and write the map back.
On MForbidden, line 82 runs `await self.log.exception(...)`: maubot gives
the plugin a synchronous TraceLogger, so log.exception logs the failure
and returns None, and the `await` of that None then raises a TypeError
inside the except handler; the sibling except clause does not catch it,
so it escapes mute (`raised`), and no user-visible reply is sent on this
path. On any other MatrixRequestError or IntentError the failure is
logged and the reply "Failed to update power levels (see logs for more
details)" is sent, and mute returns normally. -/
def mute (levels : PowerLevels) (target : String)
    (outcome : StateCallResult) : MuteResult :=
  match outcome with
  | .ok =>
      { newLevels := some (setUser levels target (-1))
        logged := false
        replySent := false
        raised := false }
  | .forbidden =>
      { newLevels := none, logged := true, replySent := false, raised := true }
  | .requestError =>
      { newLevels := none, logged := true, replySent := true, raised := false }
  | .intentError =>
      { newLevels := none, logged := true, replySent := true, raised := false }

/-- The content of the reply sent by the MatrixRequestError / IntentError
branch of Awareness.mute (a plain-text evt.reply). -/
def muteFailReply : RenderedContent :=
  { body := "Failed to update power levels (see logs for more details)"
    formattedBody := "Failed to update power levels (see logs for more details)" }

/-- The keyword loop of Awareness.event_handler with the outcome of the
power-level client calls inside each self.mute invocation threaded
through (the same outcome for every attempt during the event). The third
component records whether an exception escaped: when a mute-triggering
match hits MForbidden, the TypeError raised by line 82 escapes self.mute
and, since line 104 `await self.mute(evt)` is not inside a try block, it
escapes the handler too — the count of the triggering match is not
persisted, its reply is not sent, and the remaining keywords are not
evaluated. `keywordLoop` (used by the approved happy-path theorems) is
the projection of this function onto runs in which no mute raises; see
`keywordLoopExc_ok`. -/
def keywordLoopExc (cfg : Config) (evt : MessageEvent) (levels : PowerLevels)
    (outcome : StateCallResult) :
    List String → Store → Store × List Action × Bool
  | [], db => (db, [], false)
  | keyword :: rest, db =>
    if strContains (strLower evt.body) (strLower keyword) then
      let warnings := get_warning_count db evt.sender
      let e := warnings % 3
      if e > 1 then
        let m := mute levels evt.sender outcome
        let muteActs := Action.muteCall evt.sender ::
          (if m.replySent then [Action.reply muteFailReply] else [])
        if m.raised then
          (db, muteActs, true)
        else
          let content := keywordReply cfg keyword e evt.sender
          let db1 := set_warning_count db evt.sender (e + 1)
          let r := keywordLoopExc cfg evt levels outcome rest db1
          (r.1,
            muteActs ++ [Action.setCount evt.sender (e + 1), Action.reply content]
              ++ r.2.1,
            r.2.2)
      else
        let content := keywordReply cfg keyword e evt.sender
        let db1 := set_warning_count db evt.sender (e + 1)
        let r := keywordLoopExc cfg evt levels outcome rest db1
        (r.1,
          [Action.setCount evt.sender (e + 1), Action.reply content] ++ r.2.1,
          r.2.2)
    else
      keywordLoopExc cfg evt levels outcome rest db

/-- Awareness.event_handler with mute outcomes threaded (see
`keywordLoopExc`): the guard of line 89 is unchanged, and the Bool
records whether an exception escaped the handler. -/
def event_handlerExc (cfg : Config) (botMxid : String) (levels : PowerLevels)
    (outcome : StateCallResult) (db : Store) (evt : MessageEvent) :
    Store × List Action × Bool :=
  if evt.sender = botMxid ∨ evt.msgtype ∉ allowed_msgtypes then
    (db, [], false)
  else
    keywordLoopExc cfg evt levels outcome cfg.keywords db

/- ---------------------------------------------------------------- -/
/- ReportWorkflow: Awareness.report                                  -/
/- ---------------------------------------------------------------- -/

/-- Awareness.report (source lines 115-143), as the actions its body
performs once actually executed (it runs only through the `!report`
command binding; see `event_handler` for why the reaction path never runs
it). `getEvent` abstracts client.get_event resolving the reply target. -/
def report (cfg : Config) (evt : MessageEvent)
    (getEvent : String → Option MessageEvent) : List Action :=
  match evt.replyTo with
  | none => []
  | some replyTo =>
    match getEvent replyTo with
    | none => []
    | some reportedMsg =>
      [Action.muteCall reportedMsg.sender,
       Action.reply (prettify_usernames cfg.message_report
         reportedMsg.sender (some evt.sender))]
      ++ match cfg.notification_room with
         | some room =>
           [Action.sendMessage room
              (prettify_usernames (strReplace cfg.message_notify "[room]" evt.roomId)
                reportedMsg.sender (some evt.sender)),
            Action.sendMessage room
              { body := "> " ++ reportedMsg.body
                formattedBody :=
                  "<blockquote>\n<p>" ++ reportedMsg.body ++ "</p>\n</blockquote>\n" }]
         | none => []

/- ---------------------------------------------------------------- -/
/- Concrete fixtures                                                 -/
/- ---------------------------------------------------------------- -/

/-- The bot user id. -/
def botId : String := "@awarenessbot:example.org"

/-- A regular room member. -/
def bob : String := "@bob:example.org"

/-- A configuration with the single keyword "spam". -/
def cfgSpam : Config :=
  { keywords := ["spam"]
    notification_room := none
    message_warning := "[user] warning [count] for [keyword]"
    message_mute := "[user] muted at [count] for [keyword]"
    message_report := "[reporter] reported [user]"
    message_notify := "[user] was reported by [reporter] in [room]" }

/-- An ordinary m.room.message text event. -/
def mkTextEvt (u body : String) : MessageEvent :=
  { sender := u
    evtType := EvtType.roomMessage
    msgtype := MsgType.text
    body := body
    reactionKey := none
    roomId := "!room:example.org"
    replyTo := none }

/-- A text message from bob whose body contains the keyword "spam". -/
def evtSpam : MessageEvent := mkTextEvt bob "this is spam"

/-- A configuration with two keywords, to exercise the per-keyword loop. -/
def cfgTwo : Config :=
  { keywords := ["spam", "scam"]
    notification_room := none
    message_warning := "[user] warning [count] for [keyword]"
    message_mute := "[user] muted at [count] for [keyword]"
    message_report := "[reporter] reported [user]"
    message_notify := "[user] was reported by [reporter] in [room]" }

/-- A small power-level map: a moderator and bob. -/
def demoLevels : PowerLevels := [("@mod:example.org", 50), (bob, 0)]

/-- A reaction event carrying the report emoji, targeting some message. -/
def reactEvt : MessageEvent :=
  { sender := "@carol:example.org"
    evtType := EvtType.reaction
    msgtype := MsgType.other
    body := ""
    reactionKey := some "🚨"
    roomId := "!room:example.org"
    replyTo := none }

/- ---------------------------------------------------------------- -/
/- Closed forms of the keyword-match behaviour                       -/
/- ---------------------------------------------------------------- -/

/-- The observable actions of one keyword match, as a function of the
reduced count `e = warnings % 3` read before the increment: an optional
mute call, the persisted count `e + 1`, and the reply. -/
def matchBlock (cfg : Config) (u k : String) (e : Nat) : List Action :=
  (if e > 1 then [Action.muteCall u] else [])
    ++ [Action.setCount u (e + 1), Action.reply (keywordReply cfg k e u)]

/-- Blocks of successive keyword matches: the j-th keyword in the list is
evaluated against count `v + j` (modulo 3), each match contributing its
own block. -/
def blocksFor (cfg : Config) (u : String) : Nat → List String → List Action
  | _, [] => []
  | v, k :: ks => matchBlock cfg u k (v % 3) ++ blocksFor cfg u (v + 1) ks

/-- The store after n further matches by user u, starting from the single
row (u, v). -/
def storeAfter (u : String) (v : Nat) : Nat → Store
  | 0 => [(u, v)]
  | n + 1 => [(u, (v + n) % 3 + 1)]

/- ---------------------------------------------------------------- -/
/- Helper lemmas                                                     -/
/- ---------------------------------------------------------------- -/

theorem get_warning_count_single (u : String) (v : Nat) :
    get_warning_count [(u, v)] u = v := by
  simp [get_warning_count, List.find?]
  cases v <;> simp

theorem set_warning_count_single (u : String) (v w : Nat) :
    set_warning_count [(u, v)] u w = [(u, w)] := by
  simp [set_warning_count]

theorem storeAfter_step (u : String) (v n : Nat) :
    storeAfter u (v % 3 + 1) n = storeAfter u v (n + 1) := by
  cases n with
  | zero => simp [storeAfter]
  | succ m =>
    simp only [storeAfter, List.cons.injEq, Prod.mk.injEq, and_true, true_and]
    omega

theorem storeAfter_one (u : String) (m : Nat) :
    storeAfter u 1 m = [(u, m % 3 + 1)] := by
  cases m with
  | zero => rfl
  | succ p =>
    simp only [storeAfter, List.cons.injEq, Prod.mk.injEq, and_true, true_and]
    omega

theorem blocksFor_mod (cfg : Config) (u : String) :
    ∀ (ks : List String) (v w : Nat), v % 3 = w % 3 →
      blocksFor cfg u v ks = blocksFor cfg u w ks := by
  intro ks
  induction ks with
  | nil => intro v w _; rfl
  | cons k ks ih =>
    intro v w h
    simp only [blocksFor, h]
    rw [ih (v + 1) (w + 1) (by omega)]

theorem keywordLoop_all_match (cfg : Config) (evt : MessageEvent) :
    ∀ (ks : List String) (v : Nat),
      (∀ k ∈ ks, strContains (strLower evt.body) (strLower k) = true) →
      keywordLoop cfg evt ks [(evt.sender, v)] =
        (storeAfter evt.sender v ks.length, blocksFor cfg evt.sender v ks) := by
  intro ks
  induction ks with
  | nil => intro v _; rfl
  | cons k ks ih =>
    intro v h
    have hk : strContains (strLower evt.body) (strLower k) = true := h k (by simp)
    have hrest : ∀ x ∈ ks, strContains (strLower evt.body) (strLower x) = true :=
      fun x hx => h x (by simp [hx])
    simp only [keywordLoop, hk, if_true, get_warning_count_single,
      set_warning_count_single]
    rw [ih (v % 3 + 1) hrest, storeAfter_step,
      blocksFor_mod cfg evt.sender ks (v % 3 + 1) (v + 1) (by omega)]
    simp [blocksFor, matchBlock, List.length_cons]

theorem keywordLoop_no_match (cfg : Config) (evt : MessageEvent) (db : Store) :
    ∀ (ks : List String),
      (∀ k ∈ ks, strContains (strLower evt.body) (strLower k) = false) →
      keywordLoop cfg evt ks db = (db, []) := by
  intro ks
  induction ks with
  | nil => intro _; rfl
  | cons k ks ih =>
    intro h
    have hk := h k (by simp)
    simp only [keywordLoop, hk, Bool.false_eq_true, if_false]
    exact ih fun x hx => h x (by simp [hx])

theorem keywordLoop_setCount_range (cfg : Config) (evt : MessageEvent) :
    ∀ (ks : List String) (db : Store) (u : String) (c : Nat),
      Action.setCount u c ∈ (keywordLoop cfg evt ks db).2 → 1 ≤ c ∧ c ≤ 3 := by
  intro ks
  induction ks with
  | nil => intro db u c h; simp [keywordLoop] at h
  | cons k ks ih =>
    intro db u c h
    by_cases hk : strContains (strLower evt.body) (strLower k) = true
    · simp only [keywordLoop, hk, if_true, List.mem_append, List.mem_cons] at h
      rcases h with (h | h) | h
      · by_cases he : get_warning_count db evt.sender % 3 > 1 <;>
          simp [he] at h
      · rcases h with h | h | h
        · have : c = get_warning_count db evt.sender % 3 + 1 := by
            injection h with h1 h2
          have hlt : get_warning_count db evt.sender % 3 < 3 := Nat.mod_lt _ (by omega)
          omega
        · simp at h
        · simp at h
      · exact ih _ u c h
    · simp only [keywordLoop, hk, if_false] at h
      · exact ih _ u c h

theorem guard_passes (bot : String) (evt : MessageEvent)
    (hs : evt.sender ≠ bot) (hm : evt.msgtype = MsgType.text ∨ evt.msgtype = MsgType.emote) :
    ¬(evt.sender = bot ∨ evt.msgtype ∉ allowed_msgtypes) := by
  rcases hm with h | h <;> simp [allowed_msgtypes, h, hs]

theorem handler_all_match (cfg : Config) (bot : String) (evt : MessageEvent) (v : Nat)
    (hs : evt.sender ≠ bot)
    (hm : evt.msgtype = MsgType.text ∨ evt.msgtype = MsgType.emote)
    (h : ∀ k ∈ cfg.keywords, strContains (strLower evt.body) (strLower k) = true) :
    event_handler cfg bot [(evt.sender, v)] evt =
      (storeAfter evt.sender v cfg.keywords.length, blocksFor cfg evt.sender v cfg.keywords) := by
  simp only [event_handler, guard_passes bot evt hs hm, if_false]
  exact keywordLoop_all_match cfg evt cfg.keywords v h

theorem handler_single_from_nil (cfg : Config) (bot k : String) (evt : MessageEvent)
    (hk : cfg.keywords = [k]) (hs : evt.sender ≠ bot)
    (hm : evt.msgtype = MsgType.text ∨ evt.msgtype = MsgType.emote)
    (hmatch : strContains (strLower evt.body) (strLower k) = true) :
    event_handler cfg bot [] evt =
      ([(evt.sender, 1)], matchBlock cfg evt.sender k 0) := by
  simp only [event_handler, guard_passes bot evt hs hm, if_false, hk]
  simp [keywordLoop, hmatch, get_warning_count, set_warning_count, matchBlock]

theorem processEvents_replicate (cfg : Config) (bot k : String) (evt : MessageEvent)
    (hk : cfg.keywords = [k]) (hs : evt.sender ≠ bot)
    (hm : evt.msgtype = MsgType.text ∨ evt.msgtype = MsgType.emote)
    (hmatch : strContains (strLower evt.body) (strLower k) = true) :
    ∀ (n v : Nat),
      processEvents cfg bot (List.replicate n evt) [(evt.sender, v)] =
        (storeAfter evt.sender v n,
         (List.range n).map (fun i => matchBlock cfg evt.sender k ((v + i) % 3))) := by
  intro n
  induction n with
  | zero => intro v; rfl
  | succ m ih =>
    intro v
    rw [List.replicate_succ]
    simp only [processEvents]
    rw [handler_all_match cfg bot evt v hs hm
      (by rw [hk]; intro x hx; simp at hx; subst hx; exact hmatch)]
    rw [hk]
    simp only [List.length_cons, List.length_nil, blocksFor, List.append_nil, storeAfter,
      Nat.add_zero]
    rw [ih (v % 3 + 1), storeAfter_step, List.range_succ_eq_map]
    simp only [List.map_cons, List.map_map, Function.comp, Nat.add_zero, Prod.mk.injEq]
    refine ⟨rfl, ?_⟩
    congr 1
    apply List.map_congr_left
    intro i _
    simp only [Function.comp_apply]
    congr 1
    omega

theorem processEvents_replicate_nil (cfg : Config) (bot k : String) (evt : MessageEvent)
    (hk : cfg.keywords = [k]) (hs : evt.sender ≠ bot)
    (hm : evt.msgtype = MsgType.text ∨ evt.msgtype = MsgType.emote)
    (hmatch : strContains (strLower evt.body) (strLower k) = true) :
    ∀ (n : Nat),
      processEvents cfg bot (List.replicate n evt) [] =
        ((if n = 0 then ([] : Store) else [(evt.sender, (n - 1) % 3 + 1)]),
         (List.range n).map (fun i => matchBlock cfg evt.sender k (i % 3))) := by
  intro n
  cases n with
  | zero => rfl
  | succ m =>
    rw [List.replicate_succ]
    simp only [processEvents]
    rw [handler_single_from_nil cfg bot k evt hk hs hm hmatch]
    rw [processEvents_replicate cfg bot k evt hk hs hm hmatch m 1, storeAfter_one]
    simp only [Nat.succ_ne_zero, if_false, Nat.add_sub_cancel, List.range_succ_eq_map,
      List.map_cons, List.map_map, Prod.mk.injEq]
    refine ⟨?_, ?_⟩
    · trivial
    · congr 1
      apply List.map_congr_left
      intro i _
      simp only [Function.comp_apply]
      congr 1
      omega

theorem setUser_pred_comp (t : String) (lvl : Int) (w : String) :
    ((fun p : String × Int => p.1 == w) ∘ fun p => if p.1 == t then (p.1, lvl) else p) =
      fun p : String × Int => p.1 == w := by
  funext p
  by_cases h : p.1 = t <;> simp [h]

theorem lookupUser_setUser_self (L : PowerLevels) (t : String) (lvl : Int) :
    lookupUser (setUser L t lvl) t = some lvl := by
  unfold setUser lookupUser
  by_cases hany : (L.any fun p => p.1 == t) = true
  · rw [if_pos hany, List.find?_map, setUser_pred_comp]
    obtain ⟨x, hx, hpx⟩ := List.any_eq_true.mp hany
    cases hq : List.find? (fun p => p.1 == t) L with
    | none => exact absurd hpx (by simpa using (List.find?_eq_none.mp hq) x hx)
    | some q =>
      have hb := List.find?_some hq
      simp only [beq_iff_eq] at hb
      simp [hb]
  · rw [if_neg hany, List.find?_append]
    have hnone : List.find? (fun p => p.1 == t) L = none := by
      rw [List.find?_eq_none]
      intro x hx hc
      exact hany (List.any_eq_true.mpr ⟨x, hx, hc⟩)
    rw [hnone]
    simp [List.find?]

theorem lookupUser_setUser_other (L : PowerLevels) (t : String) (lvl : Int)
    (u : String) (hu : u ≠ t) :
    lookupUser (setUser L t lvl) u = lookupUser L u := by
  unfold setUser lookupUser
  by_cases hany : (L.any fun p => p.1 == t) = true
  · rw [if_pos hany, List.find?_map, setUser_pred_comp]
    cases hq : List.find? (fun p => p.1 == u) L with
    | none => simp
    | some q =>
      have hb := List.find?_some hq
      simp only [beq_iff_eq] at hb
      have hne : q.1 ≠ t := by rw [hb]; exact hu
      simp [hne]
  · rw [if_neg hany, List.find?_append]
    cases hq : List.find? (fun p => p.1 == u) L with
    | none =>
      have htu : (t == u) = false := beq_eq_false_iff_ne.mpr (fun h => hu h.symm)
      simp [List.find?, htu]
    | some q => simp

/-- The pure keyword loop is the projection of the exception-aware loop
onto runs in which every mute attempt succeeds. -/
theorem keywordLoopExc_ok (cfg : Config) (evt : MessageEvent) (levels : PowerLevels) :
    ∀ (ks : List String) (db : Store),
      keywordLoopExc cfg evt levels .ok ks db
        = ((keywordLoop cfg evt ks db).1, (keywordLoop cfg evt ks db).2, false) := by
  intro ks
  induction ks with
  | nil => intro db; rfl
  | cons k ks ih =>
    intro db
    by_cases hk : strContains (strLower evt.body) (strLower k) = true
    · by_cases he : get_warning_count db evt.sender % 3 > 1
      · simp [keywordLoopExc, keywordLoop, hk, he, mute, ih]
      · simp [keywordLoopExc, keywordLoop, hk, he, ih]
    · simp [keywordLoopExc, keywordLoop, hk, ih]

/-- The handler used by the happy-path theorems agrees with the
exception-aware handler whenever no mute attempt raises. -/
theorem event_handlerExc_ok (cfg : Config) (bot : String) (levels : PowerLevels)
    (db : Store) (evt : MessageEvent) :
    event_handlerExc cfg bot levels .ok db evt
      = ((event_handler cfg bot db evt).1, (event_handler cfg bot db evt).2, false) := by
  unfold event_handlerExc event_handler
  by_cases hg : evt.sender = bot ∨ evt.msgtype ∉ allowed_msgtypes
  · rw [if_pos hg, if_pos hg]
  · rw [if_neg hg, if_neg hg]
    exact keywordLoopExc_ok cfg evt levels cfg.keywords db

/-- C1, counterexample. The claim says the count persisted by
set_warning_count equals N after the N-th keyword match. On the code,
after 4 matches by a fresh user the persisted count is 1, not 4: the
handler stores the 3-reduced count plus one, not the raw count plus one. -/
theorem C1_counterexample :
    get_warning_count ((processEvents cfgSpam botId (List.replicate 4 evtSpam) []).1) bob = 1
    ∧ (1 : Nat) ≠ 4 := by decide

/-- C1, amended. For every user and every race-free sequence of N keyword
matches (N at least 1), the count persisted after the N-th match is
((N - 1) mod 3) + 1: the engine persists (read count mod 3) + 1, so the
stored value cycles 1, 2, 3 and equals N only for the first three
matches. -/
theorem C1_amended_count_cycles (cfg : Config) (bot u k body : String)
    (hk : cfg.keywords = [k]) (hu : u ≠ bot)
    (hm : strContains (strLower body) (strLower k) = true)
    (n : Nat) (hn : 1 ≤ n) :
    get_warning_count
        ((processEvents cfg bot (List.replicate n (mkTextEvt u body)) []).1) u
      = (n - 1) % 3 + 1 := by
  rw [processEvents_replicate_nil cfg bot k (mkTextEvt u body) hk hu (Or.inl rfl) hm n]
  have hn0 : ¬(n = 0) := by omega
  simp only [hn0, if_false]
  exact get_warning_count_single u ((n - 1) % 3 + 1)

theorem C1_amended_count_cycles_witness :
    (cfgSpam.keywords = ["spam"] ∧ bob ≠ botId
      ∧ strContains (strLower "this is spam") (strLower "spam") = true ∧ 1 ≤ 5)
    ∧ get_warning_count
        ((processEvents cfgSpam botId (List.replicate 5 (mkTextEvt bob "this is spam")) []).1) bob
      = (5 - 1) % 3 + 1 :=
  ⟨⟨rfl, by decide, by decide, by decide⟩,
   C1_amended_count_cycles cfgSpam botId bob "spam" "this is spam" rfl (by decide) (by decide)
     5 (by decide)⟩

/-- C2. For a race-free sequence of keyword matches by one user starting
from an empty store: the i-th match (0-indexed) produces the action block
matchBlock at reduced count i mod 3; that block contains the mute call
(and selects message_mute, see matchBlock and keywordReply) exactly when
(i + 1) mod 3 = 0, i.e. on the 3rd, 6th, 9th ... match and on no others;
and the stored count read before the i-th match is congruent to i mod 3,
so those are exactly the matches where the prior count satisfies
count mod 3 = 2. -/
theorem C2_mute_on_every_third_match (cfg : Config) (bot u k body : String)
    (hk : cfg.keywords = [k]) (hu : u ≠ bot)
    (hm : strContains (strLower body) (strLower k) = true) (n : Nat) :
    (processEvents cfg bot (List.replicate n (mkTextEvt u body)) []).2 =
        (List.range n).map (fun i => matchBlock cfg u k (i % 3))
      ∧ (∀ i : Nat, Action.muteCall u ∈ matchBlock cfg u k (i % 3) ↔ (i + 1) % 3 = 0)
      ∧ (∀ i : Nat,
          get_warning_count
            ((processEvents cfg bot (List.replicate i (mkTextEvt u body)) []).1) u % 3
            = i % 3) := by
  refine ⟨?_, ?_, ?_⟩
  · rw [processEvents_replicate_nil cfg bot k (mkTextEvt u body) hk hu (Or.inl rfl) hm n]
    rfl
  · intro i
    have h3 : i % 3 = 0 ∨ i % 3 = 1 ∨ i % 3 = 2 := by omega
    rcases h3 with h | h | h <;> rw [h] <;> simp [matchBlock] <;> omega
  · intro i
    rw [processEvents_replicate_nil cfg bot k (mkTextEvt u body) hk hu (Or.inl rfl) hm i]
    cases i with
    | zero => rfl
    | succ j =>
      simp only [Nat.succ_ne_zero, if_false, mkTextEvt]
      rw [get_warning_count_single]
      omega

theorem C2_mute_on_every_third_match_witness :
    (cfgSpam.keywords = ["spam"] ∧ bob ≠ botId
      ∧ strContains (strLower "this is spam") (strLower "spam") = true)
    ∧ ((processEvents cfgSpam botId (List.replicate 6 (mkTextEvt bob "this is spam")) []).2 =
        (List.range 6).map (fun i => matchBlock cfgSpam bob "spam" (i % 3))
      ∧ (∀ i : Nat, Action.muteCall bob ∈ matchBlock cfgSpam bob "spam" (i % 3) ↔ (i + 1) % 3 = 0)
      ∧ (∀ i : Nat,
          get_warning_count
            ((processEvents cfgSpam botId (List.replicate i (mkTextEvt bob "this is spam")) []).1) bob % 3
            = i % 3)) :=
  ⟨⟨rfl, by decide, by decide⟩,
   C2_mute_on_every_third_match cfgSpam botId bob "spam" "this is spam" rfl (by decide)
     (by decide) 6⟩

/-- C3, counterexample. The claim says a permission failure during mute is
logged and a user-visible reply explaining the failure is sent. On the
code, the MForbidden branch of Awareness.mute logs and sends no reply:
the reply exists only in the MatrixRequestError / IntentError branch
(and the branch then raises while awaiting the logging call, see the
amended theorem). -/
theorem C3_counterexample_no_reply_on_permission_error :
    (mute [] bob .forbidden).logged = true
    ∧ (mute [] bob .forbidden).replySent = false := by decide

/-- C3, amended. A mute attempt failing with a permission error is logged,
but no user-visible reply explaining the failure is sent (such a reply is
sent only for non-permission request errors), and processing of the rest
of the event aborts rather than continuing: the failing branch awaits the
None returned by the synchronous logging call, and the resulting
TypeError escapes mute and the event handler, so the triggering match
leaves the store unchanged, performs no further action after the mute
attempt, and evaluates none of the remaining keywords. -/
theorem C3_amended_permission_error_aborts_event (cfg : Config) (bot : String)
    (evt : MessageEvent) (levels : PowerLevels) (target keyword : String)
    (rest : List String) (db : Store)
    (hk : cfg.keywords = keyword :: rest)
    (hs : evt.sender ≠ bot)
    (hm : evt.msgtype = MsgType.text ∨ evt.msgtype = MsgType.emote)
    (hmk : strContains (strLower evt.body) (strLower keyword) = true)
    (he : get_warning_count db evt.sender % 3 = 2) :
    (mute levels target .forbidden).logged = true
    ∧ (mute levels target .forbidden).replySent = false
    ∧ (mute levels target .forbidden).raised = true
    ∧ (mute levels target .requestError).replySent = true
    ∧ (mute levels target .requestError).raised = false
    ∧ event_handlerExc cfg bot levels .forbidden db evt
        = (db, [Action.muteCall evt.sender], true) := by
  refine ⟨rfl, rfl, rfl, rfl, rfl, ?_⟩
  simp only [event_handlerExc, guard_passes bot evt hs hm, if_false, hk]
  simp only [keywordLoopExc, hmk, if_true, he, mute]
  norm_num

/-- C3, witness: a mute-triggering match on the first of two keywords with
a permission failure aborts the event with the store unchanged. -/
theorem C3_amended_permission_error_aborts_event_witness :
    (cfgTwo.keywords = "spam" :: ["scam"]
      ∧ bob ≠ botId
      ∧ ((mkTextEvt bob "spam or scam").msgtype = MsgType.text
          ∨ (mkTextEvt bob "spam or scam").msgtype = MsgType.emote)
      ∧ strContains (strLower (mkTextEvt bob "spam or scam").body) (strLower "spam") = true
      ∧ get_warning_count [(bob, 2)] (mkTextEvt bob "spam or scam").sender % 3 = 2)
    ∧ ((mute demoLevels bob .forbidden).logged = true
      ∧ (mute demoLevels bob .forbidden).replySent = false
      ∧ (mute demoLevels bob .forbidden).raised = true
      ∧ (mute demoLevels bob .requestError).replySent = true
      ∧ (mute demoLevels bob .requestError).raised = false
      ∧ event_handlerExc cfgTwo botId demoLevels .forbidden [(bob, 2)]
          (mkTextEvt bob "spam or scam")
          = ([(bob, 2)], [Action.muteCall bob], true)) :=
  ⟨⟨rfl, by decide, Or.inl rfl, by decide, by decide⟩,
   C3_amended_permission_error_aborts_event cfgTwo botId (mkTextEvt bob "spam or scam")
     demoLevels bob "spam" ["scam"] [(bob, 2)] rfl (by decide) (Or.inl rfl)
     (by decide) (by decide)⟩

/-- C4, code evaluated at the failing input. A reaction event carrying the
report emoji never triggers the report workflow: the handler is registered
only for ROOM_MESSAGE events, the msgtype guard rejects reaction content,
and the dead branch calls self.report without awaiting it. Processing the
reaction produces no action at all. -/
theorem C4_reaction_report_never_triggered :
    dispatch cfgSpam botId [] reactEvt = ([], [])
    ∧ event_handler cfgSpam botId [] reactEvt = ([], []) := by decide

/-- C5, code evaluated at the failing input. Writing under two casings of
the same identity creates two distinct records (the upsert conflicts only
on the exact-cased primary key), violating the one-record-per-lower-cased
identity invariant; the case-insensitive read then returns the first,
stale row. -/
theorem C5_case_insensitive_invariant_violated :
    set_warning_count (set_warning_count [] "@Alice:example.org" 1) "@alice:example.org" 2
      = [("@Alice:example.org", 1), ("@alice:example.org", 2)]
    ∧ strLower "@Alice:example.org" = strLower "@alice:example.org"
    ∧ get_warning_count
        (set_warning_count (set_warning_count [] "@Alice:example.org" 1) "@alice:example.org" 2)
        "@alice:example.org" = 1 := by decide

/-- C6. On a single text message whose body contains every configured
keyword, each keyword is evaluated independently in configured order:
the handler equals one matchBlock per keyword (own read, own
increment-and-persist, own reply) with the counter advancing by one per
keyword (blocksFor), and the loop does not short-circuit after a match or
a mute. -/
theorem C6_per_keyword_independent_evaluation (cfg : Config) (bot u body : String) (v : Nat)
    (hu : u ≠ bot)
    (hm : ∀ k ∈ cfg.keywords, strContains (strLower body) (strLower k) = true) :
    event_handler cfg bot [(u, v)] (mkTextEvt u body) =
      (storeAfter u v cfg.keywords.length, blocksFor cfg u v cfg.keywords) :=
  handler_all_match cfg bot (mkTextEvt u body) v hu (Or.inl rfl) hm

theorem C6_per_keyword_independent_evaluation_witness :
    (bob ≠ botId
      ∧ (∀ k ∈ cfgTwo.keywords, strContains (strLower "spam or scam") (strLower k) = true))
    ∧ event_handler cfgTwo botId [(bob, 2)] (mkTextEvt bob "spam or scam")
        = (storeAfter bob 2 cfgTwo.keywords.length, blocksFor cfgTwo bob 2 cfgTwo.keywords) :=
  ⟨⟨by decide, by decide⟩,
   C6_per_keyword_independent_evaluation cfgTwo botId bob "spam or scam" 2 (by decide) (by decide)⟩

/-- C7. Every warning count persisted by the event handler lies in
{1, 2, 3}: the handler always stores (read count mod 3) + 1, for any
starting store. -/
theorem C7_persisted_count_in_range (cfg : Config) (bot : String) (db : Store)
    (evt : MessageEvent) (u : String) (c : Nat)
    (h : Action.setCount u c ∈ (event_handler cfg bot db evt).2) :
    1 ≤ c ∧ c ≤ 3 := by
  unfold event_handler at h
  by_cases hg : evt.sender = bot ∨ evt.msgtype ∉ allowed_msgtypes
  · rw [if_pos hg] at h
    simp at h
  · rw [if_neg hg] at h
    exact keywordLoop_setCount_range cfg evt cfg.keywords db u c h

theorem C7_persisted_count_in_range_witness :
    (Action.setCount bob 1 ∈ (event_handler cfgSpam botId [] evtSpam).2)
    ∧ (1 ≤ 1 ∧ 1 ≤ 3) :=
  ⟨by decide, C7_persisted_count_in_range cfgSpam botId [] evtSpam bob 1 (by decide)⟩

/-- C8. A text/emote message from a non-bot sender whose body contains
none of the configured keywords (in particular when the keyword list is
empty) leaves the store unchanged and produces no action: no write, no
reply, no mute. -/
theorem C8_no_match_no_effect (cfg : Config) (bot : String) (db : Store) (evt : MessageEvent)
    (hs : evt.sender ≠ bot)
    (hm : evt.msgtype = MsgType.text ∨ evt.msgtype = MsgType.emote)
    (hk : ∀ k ∈ cfg.keywords, strContains (strLower evt.body) (strLower k) = false) :
    event_handler cfg bot db evt = (db, []) := by
  simp only [event_handler, guard_passes bot evt hs hm, if_false]
  exact keywordLoop_no_match cfg evt db cfg.keywords hk

theorem C8_no_match_no_effect_witness :
    (bob ≠ botId
      ∧ ((mkTextEvt bob "hello world").msgtype = MsgType.text
          ∨ (mkTextEvt bob "hello world").msgtype = MsgType.emote)
      ∧ (∀ k ∈ cfgSpam.keywords,
          strContains (strLower (mkTextEvt bob "hello world").body) (strLower k) = false))
    ∧ event_handler cfgSpam botId [(bob, 2)] (mkTextEvt bob "hello world") = ([(bob, 2)], []) :=
  ⟨⟨by decide, Or.inl rfl, by decide⟩,
   C8_no_match_no_effect cfgSpam botId [(bob, 2)] (mkTextEvt bob "hello world")
     (by decide) (Or.inl rfl) (by decide)⟩

/-- C9. An event authored by the bot itself, or whose message kind is
outside Text/Emote, is never evaluated for keywords: the handler returns
immediately with the store unchanged and no action, even if the body
contains a configured keyword. -/
theorem C9_ignored_events_no_effect (cfg : Config) (bot : String) (db : Store)
    (evt : MessageEvent)
    (h : evt.sender = bot ∨ (evt.msgtype ≠ MsgType.text ∧ evt.msgtype ≠ MsgType.emote)) :
    event_handler cfg bot db evt = (db, []) := by
  have hg : evt.sender = bot ∨ evt.msgtype ∉ allowed_msgtypes := by
    rcases h with h | ⟨h1, h2⟩
    · exact Or.inl h
    · right
      simp [allowed_msgtypes]
      exact ⟨h1, h2⟩
  simp [event_handler, hg]

theorem C9_ignored_events_no_effect_witness :
    (botId = botId
      ∨ ((mkTextEvt botId "this is spam").msgtype ≠ MsgType.text
          ∧ (mkTextEvt botId "this is spam").msgtype ≠ MsgType.emote))
    ∧ event_handler cfgSpam botId [] (mkTextEvt botId "this is spam") = ([], []) :=
  ⟨Or.inl rfl,
   C9_ignored_events_no_effect cfgSpam botId [] (mkTextEvt botId "this is spam") (Or.inl rfl)⟩

/-- C10. On success, mute writes back exactly the retrieved power-level
map with the target set to -1: the target entry becomes -1 and the entry
of every other user is unchanged. -/
theorem C10_mute_frame_condition (levels : PowerLevels) (target u : String)
    (hu : u ≠ target) :
    (mute levels target .ok).newLevels = some (setUser levels target (-1))
    ∧ lookupUser (setUser levels target (-1)) target = some (-1)
    ∧ lookupUser (setUser levels target (-1)) u = lookupUser levels u :=
  ⟨rfl, lookupUser_setUser_self levels target (-1),
   lookupUser_setUser_other levels target (-1) u hu⟩

theorem C10_mute_frame_condition_witness :
    ("@mod:example.org" ≠ bob)
    ∧ ((mute demoLevels bob .ok).newLevels = some (setUser demoLevels bob (-1))
      ∧ lookupUser (setUser demoLevels bob (-1)) bob = some (-1)
      ∧ lookupUser (setUser demoLevels bob (-1)) "@mod:example.org"
          = lookupUser demoLevels "@mod:example.org") :=
  ⟨by decide, C10_mute_frame_condition demoLevels bob "@mod:example.org" (by decide)⟩

end AwarenessBot
